import Mathlib

/-!
Shallow embedding of the Kenwood TM-V71 backend (src/rigs/kenwood/tmv71.c).

The transport (`kenwood_transaction`) is external to the repository; it is
modelled as an oracle `Env : Nat -> Except RigErr Line` giving the outcome of
the i-th serial exchange of a run: either a framed error (transport failure,
timeout, or the radio's rejection sentinel) or a response line.  Each protocol
and public operation is translated into a function that threads the exchange
counter and returns its C return value together with the list of commands it
issued on the wire.  C `int` values are modelled as `Int`; the nonnegative
frequency arguments of the grid-snapping helper are modelled as `Nat`
(C integer division on nonnegative values coincides with `Nat` division).
-/

/-- Hamlib error taxonomy, as far as the backend discriminates it.  The C
functions return `0` (`RIG_OK`) or a negated error code; we model the return
value as `Except RigErr Unit`. -/
inductive RigErr where
  | rjcted   -- -RIG_ERJCTED: rejected by the radio or malformed reply
  | inval    -- -RIG_EINVAL
  | proto    -- -RIG_EPROTO
  | evfo     -- -RIG_EVFO
  | io       -- -RIG_EIO: transport failure
  | timeout  -- -RIG_ETIMEOUT
deriving DecidableEq

abbrev Retcode := Except RigErr Unit

/-- Hamlib constants used by the backend (from the external rig.h). -/
def RIG_VFO_NONE : Int := 0
def RIG_VFO_A : Int := 1
def RIG_VFO_B : Int := 2
def RIG_VFO_VFO : Int := 134217728
def RIG_VFO_MEM : Int := 268435456
def RIG_VFO_CURR : Int := 536870912
def RIG_SPLIT_OFF : Int := 0
def RIG_SPLIT_ON : Int := 1
def RIG_PTT_OFF : Int := 0
def RIG_PTT_ON : Int := 1
def RIG_MODE_AM : Int := 1
def RIG_MODE_FM : Int := 32
def RIG_MODE_WFM : Int := 64
def RIG_MODE_FMN : Int := 2097152

/-- Backend constants (tmv71.c lines 146-169). -/
def tmv71_BAND_A : Int := 0
def tmv71_BAND_B : Int := 1
def tmv71_BAND_UNKNOWN : Int := 2
def tmv71_BAND_A_CHANNEL : Int := 998
def tmv71_BAND_B_CHANNEL : Int := 999
def tmv71_BAND_MODE_MEMORY : Int := 1
def tmv71_MODE_FM : Int := 0
def tmv71_MODE_NFM : Int := 1
def tmv71_MODE_AM : Int := 2

/-- The 16-field ME memory record, field order as in `struct tmv71_me`
(tmv71.c lines 360-378). -/
structure Me where
  channel : Int     -- P1
  freq : Int        -- P2
  step : Int        -- P3
  shift : Int       -- P4
  reverse : Int     -- P5
  tone : Int        -- P6
  ct : Int          -- P7
  dcs : Int         -- P8
  tone_freq : Int   -- P9
  ct_freq : Int     -- P10
  dcs_val : Int     -- P11
  offset : Int      -- P12
  mode : Int        -- P13
  tx_freq : Int     -- P14
  tx_step : Int     -- P15
  lockout : Int     -- P16
deriving DecidableEq

/-- A response line from the radio, already classified by shape.  `Line.me r`
is a reply that parses as a full 16-field ME record; `plain` is any other
well-received line (e.g. a bare echo), which satisfies a push but fails the
field-count check of every pull. -/
inductive Line where
  | me (r : Me)
  | bc (band_ctrl band_ptt : Int)
  | vm (band mode : Int)
  | mr (band ch : Int)
  | byLine (band flag : Int)
  | plain
deriving DecidableEq

/-- A command sent to the radio, at the level of the rendered record. -/
inductive Cmd where
  | meQuery (ch : Int)
  | meSet (r : Me)
  | vmQuery (band : Int)
  | vmSet (band mode : Int)
  | bcQuery
  | bcSet (band_ctrl band_ptt : Int)
  | mrQuery (band : Int)
  | mrSet (band ch : Int)
  | txSet
  | rxSet
  | byQuery (v : Int)
deriving DecidableEq

/-- The transport oracle: outcome of the i-th `kenwood_transaction` call. -/
abbrev Env := Nat → Except RigErr Line

/-- One `kenwood_transaction`: sends the command, consumes one oracle answer. -/
def kenwood_exchange (env : Env) (i : Nat) (c : Cmd) :
    Except RigErr Line × Nat × List Cmd :=
  (env i, i + 1, [c])

/-- Prepend an already-issued command prefix to an operation's outcome;
models C sequencing of two calls that both talk to the radio. -/
def prepends {α : Type} (pre : List Cmd) (x : α × Nat × List Cmd) :
    α × Nat × List Cmd :=
  (x.1, x.2.1, pre ++ x.2.2)

/-- tmv71_transform_band_to_vfo (tmv71.c line 415). -/
def tmv71_transform_band_to_vfo (band : Int) : Int :=
  if band = tmv71_BAND_A then RIG_VFO_A else RIG_VFO_B

/-- tmv71_transform_vfo_to_band (tmv71.c line 419). -/
def tmv71_transform_vfo_to_band (vfo : Int) : Int :=
  if vfo = RIG_VFO_A then tmv71_BAND_A
  else if vfo = RIG_VFO_B then tmv71_BAND_B
  else tmv71_BAND_UNKNOWN

/-- rig_pull_me (tmv71.c line 581): query `ME ch`; a transaction error is
propagated, a reply that does not parse as 16 ME fields yields rejected. -/
def rig_pull_me (env : Env) (i : Nat) (ch : Int) :
    Except RigErr Me × Nat × List Cmd :=
  match kenwood_exchange env i (Cmd.meQuery ch) with
  | (.error e, i1, tr) => (.error e, i1, tr)
  | (.ok (Line.me r), i1, tr) => (.ok r, i1, tr)
  | (.ok _, i1, tr) => (.error RigErr.rjcted, i1, tr)

/-- rig_push_me (tmv71.c line 619): send the full record; the transaction's
return value is passed through unchanged. -/
def rig_push_me (env : Env) (i : Nat) (r : Me) : Retcode × Nat × List Cmd :=
  match kenwood_exchange env i (Cmd.meSet r) with
  | (.error e, i1, tr) => (.error e, i1, tr)
  | (.ok _, i1, tr) => (.ok (), i1, tr)

/-- rig_push_vm (tmv71.c line 674). -/
def rig_push_vm (env : Env) (i : Nat) (vfo mode : Int) :
    Retcode × Nat × List Cmd :=
  match kenwood_exchange env i (Cmd.vmSet (tmv71_transform_vfo_to_band vfo) mode) with
  | (.error e, i1, tr) => (.error e, i1, tr)
  | (.ok _, i1, tr) => (.ok (), i1, tr)

/-- rig_pull_bc (tmv71.c line 692): query `BC`; the two band fields are mapped
to vfo values; a malformed reply yields rejected. -/
def rig_pull_bc (env : Env) (i : Nat) :
    Except RigErr (Int × Int) × Nat × List Cmd :=
  match kenwood_exchange env i Cmd.bcQuery with
  | (.error e, i1, tr) => (.error e, i1, tr)
  | (.ok (Line.bc bc bp), i1, tr) =>
      (.ok (tmv71_transform_band_to_vfo bc, tmv71_transform_band_to_vfo bp), i1, tr)
  | (.ok _, i1, tr) => (.error RigErr.rjcted, i1, tr)

/-- rig_push_bc (tmv71.c line 728). -/
def rig_push_bc (env : Env) (i : Nat) (ctrl ptt : Int) :
    Retcode × Nat × List Cmd :=
  match kenwood_exchange env i
      (Cmd.bcSet (tmv71_transform_vfo_to_band ctrl) (tmv71_transform_vfo_to_band ptt)) with
  | (.error e, i1, tr) => (.error e, i1, tr)
  | (.ok _, i1, tr) => (.ok (), i1, tr)

/-- rig_pull_mr (tmv71.c line 749). -/
def rig_pull_mr (env : Env) (i : Nat) (vfo : Int) :
    Except RigErr Int × Nat × List Cmd :=
  match kenwood_exchange env i (Cmd.mrQuery (tmv71_transform_vfo_to_band vfo)) with
  | (.error e, i1, tr) => (.error e, i1, tr)
  | (.ok (Line.mr _ ch), i1, tr) => (.ok ch, i1, tr)
  | (.ok _, i1, tr) => (.error RigErr.rjcted, i1, tr)

/-- rig_push_mr (tmv71.c line 784). -/
def rig_push_mr (env : Env) (i : Nat) (vfo ch : Int) :
    Retcode × Nat × List Cmd :=
  match kenwood_exchange env i (Cmd.mrSet (tmv71_transform_vfo_to_band vfo) ch) with
  | (.error e, i1, tr) => (.error e, i1, tr)
  | (.ok _, i1, tr) => (.ok (), i1, tr)

/-- rig_push_tx (tmv71.c line 846). -/
def rig_push_tx (env : Env) (i : Nat) : Retcode × Nat × List Cmd :=
  match kenwood_exchange env i Cmd.txSet with
  | (.error e, i1, tr) => (.error e, i1, tr)
  | (.ok _, i1, tr) => (.ok (), i1, tr)

/-- rig_push_rx (tmv71.c line 858). -/
def rig_push_rx (env : Env) (i : Nat) : Retcode × Nat × List Cmd :=
  match kenwood_exchange env i Cmd.rxSet with
  | (.error e, i1, tr) => (.error e, i1, tr)
  | (.ok _, i1, tr) => (.ok (), i1, tr)

/-- Carrier-detect result (hamlib dcd_t: RIG_DCD_OFF = 0, RIG_DCD_ON = 1). -/
inductive Dcd where
  | off
  | on
deriving DecidableEq

/-- rig_pull_by (tmv71.c line 870): sends `BY vfo` (the raw vfo value, not a
band index).  The source then runs `sscanf(buf, "BY %d", &dcdVal)`, which
reads only the FIRST numeric field of the reply (the band echo); on a reply
that is not a BY line the scan fails and `dcdVal` keeps its uninitialized
value, modelled by the extra `uninit` parameter. -/
def rig_pull_by (env : Env) (i : Nat) (uninit : Int) (vfo : Int) :
    Except RigErr Dcd × Nat × List Cmd :=
  match kenwood_exchange env i (Cmd.byQuery vfo) with
  | (.error e, i1, tr) => (.error e, i1, tr)
  | (.ok l, i1, tr) =>
      let dcdVal : Int :=
        match l with
        | Line.byLine band _flag => band
        | _ => uninit
      if dcdVal = 0 then (.ok Dcd.off, i1, tr)
      else if dcdVal = 1 then (.ok Dcd.on, i1, tr)
      else (.error RigErr.rjcted, i1, tr)

/-- In-process session state (the file-scope `tmv71_state` struct,
tmv71.c lines 352-357). -/
structure TmvState where
  vfo_tx : Int
  vfo_rx : Int
  split_mode_active : Int
deriving DecidableEq

/-- tmv71_open (tmv71.c lines 405-413).  The source contains the same
assignment `tmv71_state.vfo_tx = RIG_VFO_A;` twice in a row; `vfo_rx` and
`split_mode_active` are not assigned.  The operation performs no transaction,
so it is a pure state transformer issuing no commands. -/
def tmv71_open (st : TmvState) : TmvState × List Cmd :=
  let st1 := { st with vfo_tx := RIG_VFO_A }
  let st2 := { st1 with vfo_tx := RIG_VFO_A }
  (st2, [])

/-- tmv71_vfo_to_channel (tmv71.c lines 519-555): A maps to 998, B to 999;
any other vfo reads `BC` and maps the control band, falling back to channel
998 (VFO A) when the pull fails.  The recursive call in the source is made
with the pulled control vfo, which is always A or B, and is inlined here. -/
def tmv71_vfo_to_channel (env : Env) (i : Nat) (vfo : Int) :
    Int × Nat × List Cmd :=
  if vfo = RIG_VFO_A then (tmv71_BAND_A_CHANNEL, i, [])
  else if vfo = RIG_VFO_B then (tmv71_BAND_B_CHANNEL, i, [])
  else
    let bc := rig_pull_bc env i
    (match bc.1 with
     | .error _ => tmv71_BAND_A_CHANNEL
     | .ok (ctrl, _) =>
        if ctrl = RIG_VFO_A then tmv71_BAND_A_CHANNEL else tmv71_BAND_B_CHANNEL,
     bc.2.1, bc.2.2)

/-- tmv71_get_update_me (tmv71.c lines 557-576): a partial record with every
field set to the -1 sentinel.  The source never assigns `me_new.channel`
(it is uninitialized and never read afterwards); we thread an arbitrary
value `u` for it. -/
def tmv71_get_update_me (u : Int) : Me :=
  { channel := u, freq := -1, step := -1, shift := -1, reverse := -1,
    tone := -1, ct := -1, dcs := -1, tone_freq := -1, ct_freq := -1,
    dcs_val := -1, offset := -1, mode := -1, tx_freq := -1, tx_step := -1,
    lockout := -1 }

/-- The overlay of tmv71_update_memory_channel (tmv71.c lines 919-933): every
field of the partial record other than the -1 sentinel replaces the pulled
value; the channel field is never touched. -/
def tmv71_me_overlay (cur p : Me) : Me :=
  { channel := cur.channel
    freq := if p.freq ≠ -1 then p.freq else cur.freq
    step := if p.step ≠ -1 then p.step else cur.step
    shift := if p.shift ≠ -1 then p.shift else cur.shift
    reverse := if p.reverse ≠ -1 then p.reverse else cur.reverse
    tone := if p.tone ≠ -1 then p.tone else cur.tone
    ct := if p.ct ≠ -1 then p.ct else cur.ct
    dcs := if p.dcs ≠ -1 then p.dcs else cur.dcs
    tone_freq := if p.tone_freq ≠ -1 then p.tone_freq else cur.tone_freq
    ct_freq := if p.ct_freq ≠ -1 then p.ct_freq else cur.ct_freq
    dcs_val := if p.dcs_val ≠ -1 then p.dcs_val else cur.dcs_val
    offset := if p.offset ≠ -1 then p.offset else cur.offset
    mode := if p.mode ≠ -1 then p.mode else cur.mode
    tx_freq := if p.tx_freq ≠ -1 then p.tx_freq else cur.tx_freq
    tx_step := if p.tx_step ≠ -1 then p.tx_step else cur.tx_step
    lockout := if p.lockout ≠ -1 then p.lockout else cur.lockout }

/-- tmv71_update_memory_channel (tmv71.c lines 905-936): pull the channel's
current record; on any pull failure return that error without pushing;
otherwise push the overlay. -/
def tmv71_update_memory_channel (env : Env) (i : Nat) (ch : Int) (p : Me) :
    Retcode × Nat × List Cmd :=
  match rig_pull_me env i ch with
  | (.error e, i1, tr) => (.error e, i1, tr)
  | (.ok cur, i1, tr) => prepends tr (rig_push_me env i1 (tmv71_me_overlay cur p))

/-- Frequency and step pair (struct tmv71_stepFreq, tmv71.c lines 388-392). -/
structure StepFreq where
  frequency : Nat
  step : Nat
deriving DecidableEq

/-- tmv71_resolve_supported_freq (tmv71.c lines 968-994).  `freq` is a C
`int`, so `freq / 5000` and `freq / 6250` are integer divisions that truncate
BEFORE `round` is applied; likewise `resolvedFreq / 10000` on the high band
(`resolvedFreq` is a `long`).  The comparison is `fabs(freq5 - freq) <
fabs(freq625 - freq)` with both candidates at or below `freq`. -/
def tmv71_resolve_supported_freq (freq : Nat) : StepFreq :=
  let freq5 : Nat := freq / 5000 * 5000
  let freq625 : Nat := freq / 6250 * 6250
  let step : Nat := if freq - freq5 < freq - freq625 then 0 else 1
  let resolvedFreq : Nat := if freq - freq5 < freq - freq625 then freq5 else freq625
  { frequency :=
      if 470000000 ≤ resolvedFreq then resolvedFreq / 10000 * 10000 else resolvedFreq
    step := if 470000000 ≤ resolvedFreq then 4 else step }

/-- tmv71_resolve_vfo_for_split (tmv71.c lines 1007-1033): when the session
split flag is on, a split action resolves to the session TX vfo and a
non-split action to the session RX vfo; otherwise the requested vfo is kept. -/
def tmv71_resolve_vfo_for_split (st : TmvState) (for_split_action : Int)
    (requested : Int) : Int :=
  if st.split_mode_active = RIG_SPLIT_ON then
    if for_split_action ≠ 0 then st.vfo_tx else st.vfo_rx
  else requested

/-- tmv71_do_set_freq (tmv71.c lines 1040-1055): resolve the channel, snap the
frequency, and run the partial update with only freq and step set. -/
def tmv71_do_set_freq (env : Env) (i : Nat) (u : Int) (vfo : Int) (freq : Nat) :
    Retcode × Nat × List Cmd :=
  let vc := tmv71_vfo_to_channel env i vfo
  let sf := tmv71_resolve_supported_freq freq
  prepends vc.2.2 (tmv71_update_memory_channel env vc.2.1 vc.1
    { tmv71_get_update_me u with step := (sf.step : Int), freq := (sf.frequency : Int) })

/-- tmv71_do_get_freq (tmv71.c lines 1062-1078). -/
def tmv71_do_get_freq (env : Env) (i : Nat) (vfo : Int) :
    Except RigErr Int × Nat × List Cmd :=
  let vc := tmv71_vfo_to_channel env i vfo
  match rig_pull_me env vc.2.1 vc.1 with
  | (.error e, i1, tr) => (.error e, i1, vc.2.2 ++ tr)
  | (.ok r, i1, tr) => (.ok r.freq, i1, vc.2.2 ++ tr)

/-- tmv71_set_freq (tmv71.c lines 1084-1094). -/
def tmv71_set_freq (env : Env) (i : Nat) (u : Int) (st : TmvState)
    (vfo : Int) (freq : Nat) : Retcode × Nat × List Cmd :=
  tmv71_do_set_freq env i u (tmv71_resolve_vfo_for_split st 0 vfo) freq

/-- tmv71_get_freq (tmv71.c lines 1100-1108). -/
def tmv71_get_freq (env : Env) (i : Nat) (st : TmvState) (vfo : Int) :
    Except RigErr Int × Nat × List Cmd :=
  tmv71_do_get_freq env i (tmv71_resolve_vfo_for_split st 0 vfo)

/-- tmv71_set_split_freq (tmv71.c lines 1114-1122). -/
def tmv71_set_split_freq (env : Env) (i : Nat) (u : Int) (st : TmvState)
    (vfo : Int) (freq : Nat) : Retcode × Nat × List Cmd :=
  tmv71_do_set_freq env i u (tmv71_resolve_vfo_for_split st 1 vfo) freq

/-- tmv71_get_split_freq (tmv71.c lines 1128-1136). -/
def tmv71_get_split_freq (env : Env) (i : Nat) (st : TmvState) (vfo : Int) :
    Except RigErr Int × Nat × List Cmd :=
  tmv71_do_get_freq env i (tmv71_resolve_vfo_for_split st 1 vfo)

/-- tmv71_set_ptt (tmv71.c lines 1138-1150): issues TX or RX, DISCARDS the
transaction's return value, and returns RIG_OK unconditionally. -/
def tmv71_set_ptt (env : Env) (i : Nat) (ptt : Int) :
    Retcode × Nat × List Cmd :=
  let inner := if ptt = RIG_PTT_ON then rig_push_tx env i else rig_push_rx env i
  (.ok (), inner.2.1, inner.2.2)

/-- tmv71_trasform_mode_from_hamlib (tmv71.c lines 493-517); `none` models the
-RIG_EINVAL path, on which the out parameter is not written. -/
def tmv71_trasform_mode_from_hamlib (m : Int) : Option Int :=
  if m = RIG_MODE_WFM then some tmv71_MODE_FM
  else if m = RIG_MODE_FM ∨ m = RIG_MODE_FMN then some tmv71_MODE_NFM
  else if m = RIG_MODE_AM then some tmv71_MODE_AM
  else none

/-- tmv71_trasform_mode_to_hamlib (tmv71.c lines 469-491): radio mode code to
(hamlib mode, passband width); `none` models the -RIG_EINVAL path. -/
def tmv71_trasform_mode_to_hamlib (m : Int) : Option (Int × Int) :=
  if m = tmv71_MODE_FM then some (RIG_MODE_WFM, 15000)
  else if m = tmv71_MODE_NFM then some (RIG_MODE_FM, 5000)
  else if m = tmv71_MODE_AM then some (RIG_MODE_AM, 4000)
  else none

/-- tmv71_set_mode (tmv71.c lines 1157-1174): resolves the split routing, then
runs the partial update with only the mode field set.  The source ignores the
return value of the mode transform, so on an unsupported mode the partial
record's mode field keeps the -1 sentinel and the update proceeds. -/
def tmv71_set_mode (env : Env) (i : Nat) (u : Int) (st : TmvState)
    (vfo mode : Int) : Retcode × Nat × List Cmd :=
  let resolved := tmv71_resolve_vfo_for_split st 0 vfo
  let vc := tmv71_vfo_to_channel env i resolved
  let p :=
    match tmv71_trasform_mode_from_hamlib mode with
    | some m => { tmv71_get_update_me u with mode := m }
    | none => tmv71_get_update_me u
  prepends vc.2.2 (tmv71_update_memory_channel env vc.2.1 vc.1 p)

/-- tmv71_get_mode (tmv71.c lines 1180-1201): the return value is the pull's;
the mode transform's result (or its failure, which leaves the out parameters
unwritten) is modelled by the `Option` component. -/
def tmv71_get_mode (env : Env) (i : Nat) (st : TmvState) (vfo : Int) :
    (Retcode × Option (Int × Int)) × Nat × List Cmd :=
  let resolved := tmv71_resolve_vfo_for_split st 0 vfo
  let vc := tmv71_vfo_to_channel env i resolved
  match rig_pull_me env vc.2.1 vc.1 with
  | (.error e, i1, tr) => ((.error e, none), i1, vc.2.2 ++ tr)
  | (.ok r, i1, tr) =>
      ((.ok (), tmv71_trasform_mode_to_hamlib r.mode), i1, vc.2.2 ++ tr)

/-- tmv71_set_ts (tmv71.c lines 1245-1257): partial update with only the step
field set (to the raw requested value). -/
def tmv71_set_ts (env : Env) (i : Nat) (u : Int) (vfo ts : Int) :
    Retcode × Nat × List Cmd :=
  let vc := tmv71_vfo_to_channel env i vfo
  prepends vc.2.2 (tmv71_update_memory_channel env vc.2.1 vc.1
    { tmv71_get_update_me u with step := ts })

/-- tmv71_get_ts (tmv71.c lines 1264-1282). -/
def tmv71_get_ts (env : Env) (i : Nat) (vfo : Int) :
    Except RigErr Int × Nat × List Cmd :=
  let vc := tmv71_vfo_to_channel env i vfo
  match rig_pull_me env vc.2.1 vc.1 with
  | (.error e, i1, tr) => (.error e, i1, vc.2.2 ++ tr)
  | (.ok r, i1, tr) => (.ok r.step, i1, vc.2.2 ++ tr)

/-- The three tone kinds (enum tmv71_tone_type, tmv71.c lines 338-343). -/
inductive ToneType where
  | tx_tone
  | ctcss
  | dcs
deriving DecidableEq

/-- tmv71_do_set_tone (tmv71.c lines 1393-1432).  The partial record clears
all three enable flags and then sets exactly the requested one.  The code
index computed by `tmv71_tone_to_code` is written to the LOCAL variable
`tone_code` (the call passes `&tone_code`, not a field of `me_struct`), so
the record's tone_freq / ct_freq / dcs_val fields keep the -1 sentinel and
the requested `tone` value has no effect on the pushed record; the transform's
return value is also discarded. -/
def tmv71_do_set_tone (env : Env) (i : Nat) (u : Int) (vfo : Int)
    (ty : ToneType) (_tone : Int) : Retcode × Nat × List Cmd :=
  let me0 := { tmv71_get_update_me u with tone := 0, ct := 0, dcs := 0 }
  let p :=
    match ty with
    | .tx_tone => { me0 with tone := 1 }
    | .ctcss => { me0 with ct := 1 }
    | .dcs => { me0 with dcs := 1 }
  let vc := tmv71_vfo_to_channel env i vfo
  prepends vc.2.2 (tmv71_update_memory_channel env vc.2.1 vc.1 p)

/-- tmv71_set_ctcss_tone (tmv71.c lines 1439-1445). -/
def tmv71_set_ctcss_tone (env : Env) (i : Nat) (u : Int) (vfo tone : Int) :
    Retcode × Nat × List Cmd :=
  tmv71_do_set_tone env i u vfo ToneType.tx_tone tone

/-- tmv71_set_ctcss_sql (tmv71.c lines 1466-1472). -/
def tmv71_set_ctcss_sql (env : Env) (i : Nat) (u : Int) (vfo tone : Int) :
    Retcode × Nat × List Cmd :=
  tmv71_do_set_tone env i u vfo ToneType.ctcss tone

/-- tmv71_set_dcs_sql (tmv71.c lines 1493-1499). -/
def tmv71_set_dcs_sql (env : Env) (i : Nat) (u : Int) (vfo tone : Int) :
    Retcode × Nat × List Cmd :=
  tmv71_do_set_tone env i u vfo ToneType.dcs tone

/-- tmv71_do_get_tone (tmv71.c lines 1349-1391): its return value is the
pull's error, or RIG_OK once the pull succeeds (the inner
`tmv71_code_to_tone` result is discarded and the tone out-parameter depends
on uninitialized memory in the source, so only the return value and the
trace are modelled). -/
def tmv71_do_get_tone (env : Env) (i : Nat) (vfo : Int) (_ty : ToneType) :
    Retcode × Nat × List Cmd :=
  let vc := tmv71_vfo_to_channel env i vfo
  match rig_pull_me env vc.2.1 vc.1 with
  | (.error e, i1, tr) => (.error e, i1, vc.2.2 ++ tr)
  | (.ok _, i1, tr) => (.ok (), i1, vc.2.2 ++ tr)

/-- tmv71_get_ctcss_tone (tmv71.c lines 1452-1459): runs the inner get,
DISCARDS its return value, and returns 0. -/
def tmv71_get_ctcss_tone (env : Env) (i : Nat) (vfo : Int) :
    Retcode × Nat × List Cmd :=
  let inner := tmv71_do_get_tone env i vfo ToneType.tx_tone
  (.ok (), inner.2.1, inner.2.2)

/-- tmv71_get_ctcss_sql (tmv71.c lines 1479-1486): same shape. -/
def tmv71_get_ctcss_sql (env : Env) (i : Nat) (vfo : Int) :
    Retcode × Nat × List Cmd :=
  let inner := tmv71_do_get_tone env i vfo ToneType.ctcss
  (.ok (), inner.2.1, inner.2.2)

/-- tmv71_get_dcs_sql (tmv71.c lines 1506-1513): same shape. -/
def tmv71_get_dcs_sql (env : Env) (i : Nat) (vfo : Int) :
    Retcode × Nat × List Cmd :=
  let inner := tmv71_do_get_tone env i vfo ToneType.dcs
  (.ok (), inner.2.1, inner.2.2)

/-- The record built by tmv71_create_clean_memory_channel
(tmv71.c lines 1520-1537). -/
def tmv71_clean_me (ch : Int) : Me :=
  { channel := ch, freq := 146500000, step := 0, shift := 0, reverse := 0,
    tone := 0, ct := 0, dcs := 0, tone_freq := 0, ct_freq := 0, dcs_val := 0,
    offset := 0, mode := 0, tx_freq := 0, tx_step := 0, lockout := 0 }

/-- tmv71_create_clean_memory_channel (tmv71.c lines 1515-1546): push the
fresh record; the push's return value is passed through. -/
def tmv71_create_clean_memory_channel (env : Env) (i : Nat) (ch : Int) :
    Retcode × Nat × List Cmd :=
  rig_push_me env i (tmv71_clean_me ch)

/-- tmv71_get_current_vfo (tmv71.c lines 1548-1562): a logging wrapper around
rig_pull_bc. -/
def tmv71_get_current_vfo (env : Env) (i : Nat) :
    Except RigErr (Int × Int) × Nat × List Cmd :=
  rig_pull_bc env i

/-- The part of tmv71_set_vfo after a pseudo-vfo channel is known to exist:
`MR ctrl,channel` then `BC ctrl,ctrl` (tmv71.c lines 1623-1637). -/
def tmv71_set_vfo_mr_bc (env : Env) (i : Nat) (ctrl channel : Int) :
    Retcode × Nat × List Cmd :=
  match rig_push_mr env i ctrl channel with
  | (.error e, i1, tr) => (.error e, i1, tr)
  | (.ok _, i1, tr) => prepends tr (rig_push_bc env i1 ctrl ctrl)

/-- The body of tmv71_set_vfo after the switch (tmv71.c lines 1597-1637):
force Memory mode, then, for a pseudo vfo (channel > 0), pull the backing
channel and create it when the pull fails WITH ANY ERROR (the source tests
only `retval != RIG_OK`), then select the channel and set both control and
PTT to the chosen band. -/
def tmv71_set_vfo_body (env : Env) (i : Nat) (ctrl channel : Int) :
    Retcode × Nat × List Cmd :=
  match rig_push_vm env i ctrl tmv71_BAND_MODE_MEMORY with
  | (.error e, i1, tr) => (.error e, i1, tr)
  | (.ok _, i1, tr1) =>
      if channel > 0 then
        match rig_pull_me env i1 channel with
        | (.ok _, i2, tr2) =>
            prepends (tr1 ++ tr2) (tmv71_set_vfo_mr_bc env i2 ctrl channel)
        | (.error _, i2, tr2) =>
            match tmv71_create_clean_memory_channel env i2 channel with
            | (.error e, i3, tr3) => (.error e, i3, tr1 ++ tr2 ++ tr3)
            | (.ok _, i3, tr3) =>
                prepends (tr1 ++ tr2 ++ tr3) (tmv71_set_vfo_mr_bc env i3 ctrl channel)
      else
        prepends tr1 (rig_push_bc env i1 ctrl ctrl)

/-- tmv71_set_vfo (tmv71.c lines 1564-1638).  `ctrl` starts as the requested
vfo; A and VFO select channel 998, B selects 999, MEM reads `BC` first (its
failure aborts) and keeps channel 0, anything else is -RIG_EVFO. -/
def tmv71_set_vfo (env : Env) (i : Nat) (vfo : Int) :
    Retcode × Nat × List Cmd :=
  if vfo = RIG_VFO_A ∨ vfo = RIG_VFO_VFO then
    tmv71_set_vfo_body env i vfo tmv71_BAND_A_CHANNEL
  else if vfo = RIG_VFO_B then
    tmv71_set_vfo_body env i vfo tmv71_BAND_B_CHANNEL
  else if vfo = RIG_VFO_MEM then
    match tmv71_get_current_vfo env i with
    | (.error e, i1, tr) => (.error e, i1, tr)
    | (.ok (ctrl, _), i1, tr) => prepends tr (tmv71_set_vfo_body env i1 ctrl 0)
  else (.error RigErr.evfo, i, [])

/-- tmv71_get_vfo (tmv71.c lines 1640-1686). -/
def tmv71_get_vfo (env : Env) (i : Nat) :
    Except RigErr Int × Nat × List Cmd :=
  match tmv71_get_current_vfo env i with
  | (.error e, i1, tr) => (.error e, i1, tr)
  | (.ok (band, _), i1, tr) =>
      match rig_pull_mr env i1 band with
      | (.error e, i2, tr2) => (.error e, i2, tr ++ tr2)
      | (.ok ch, i2, tr2) =>
          (.ok (if ch = tmv71_BAND_A_CHANNEL then RIG_VFO_A
                else if ch = tmv71_BAND_B_CHANNEL then RIG_VFO_B
                else RIG_VFO_MEM), i2, tr ++ tr2)

/-- tmv71_set_split_vfo (tmv71.c lines 1697-1726): push `BC txvfo,txvfo`; on
success, split ON stores (tx = txvfo, rx = the opposite vfo, split on) in the
session, split OFF clears only the split flag. -/
def tmv71_set_split_vfo (env : Env) (i : Nat) (st : TmvState)
    (split txvfo : Int) : (Retcode × TmvState) × Nat × List Cmd :=
  match rig_push_bc env i txvfo txvfo with
  | (.error e, i1, tr) => ((.error e, st), i1, tr)
  | (.ok _, i1, tr) =>
      if split = RIG_SPLIT_ON then
        ((.ok (), { vfo_tx := txvfo,
                    vfo_rx := if txvfo = RIG_VFO_A then RIG_VFO_B else RIG_VFO_A,
                    split_mode_active := RIG_SPLIT_ON }), i1, tr)
      else
        ((.ok (), { st with split_mode_active := RIG_SPLIT_OFF }), i1, tr)

/-- The caller-visible outcome of tmv71_get_split_vfo: the return code and the
final values of the caller's `split` and `txvfo` variables. -/
structure SplitVfoOut where
  retcode : Retcode
  split : Int
  txvfo : Int

/-- tmv71_get_split_vfo (tmv71.c lines 1728-1758): `*txvfo` is assigned the
session TX vfo at entry; the `BC` pull is only a sanity check whose failure
is returned, and a PTT disagreement merely logs a warning; `*split` is NEVER
assigned, so the caller's variable keeps its prior value `split0`. -/
def tmv71_get_split_vfo (env : Env) (i : Nat) (st : TmvState)
    (split0 _txvfo0 : Int) : SplitVfoOut × Nat × List Cmd :=
  match tmv71_get_current_vfo env i with
  | (.error e, i1, tr) => (⟨.error e, split0, st.vfo_tx⟩, i1, tr)
  | (.ok _, i1, tr) => (⟨.ok (), split0, st.vfo_tx⟩, i1, tr)

/-- tmv71_get_dcd (tmv71.c lines 1954-1957). -/
def tmv71_get_dcd (env : Env) (i : Nat) (uninit : Int) (vfo : Int) :
    Except RigErr Dcd × Nat × List Cmd :=
  rig_pull_by env i uninit vfo

/-- An oracle whose every exchange fails with a transport error. -/
def envIO : Env := fun _ => .error RigErr.io

/-- An oracle whose every exchange succeeds with a bare echo line. -/
def envOK : Env := fun _ => .ok Line.plain

/-- An oracle for a set-VFO(A) run in which the pull of channel 998 (the
second exchange) fails with a transport error and every other exchange
succeeds. -/
def envC2 : Env := fun i =>
  if i = 1 then .error RigErr.io else .ok Line.plain

/-- A stored record for channel 998 whose transmit-tone index is 5. -/
def meToneFive : Me :=
  { channel := 998, freq := 146500000, step := 0, shift := 0, reverse := 0,
    tone := 0, ct := 0, dcs := 0, tone_freq := 5, ct_freq := 0, dcs_val := 0,
    offset := 0, mode := 0, tx_freq := 0, tx_step := 0, lockout := 0 }

/-- An oracle for a set-ctcss-tone run: the pull of channel 998 returns
`meToneFive` and the subsequent push succeeds. -/
def envToneFive : Env := fun i =>
  if i = 0 then .ok (Line.me meToneFive) else .ok Line.plain

/-- An oracle replying `BY 0,1` to the first exchange and `BY 0,9` to the
second. -/
def envBy : Env := fun i =>
  if i = 0 then .ok (Line.byLine 0 1) else .ok (Line.byLine 0 9)

/-- The outcome `out` of a public setter factors as a command prefix that
contains no ME push, followed by exactly one run of the read-modify-write
helper `tmv71_update_memory_channel` on some channel and partial record. -/
def runs_partial_update (env : Env) (out : Retcode × Nat × List Cmd) : Prop :=
  ∃ ch i1 pre p, (∀ r : Me, Cmd.meSet r ∉ pre) ∧
    out = prepends pre (tmv71_update_memory_channel env i1 ch p)

deriving instance DecidableEq for Except

theorem rig_pull_me_counter_trace (env : Env) (i : Nat) (ch : Int) :
    (rig_pull_me env i ch).2 = (i + 1, [Cmd.meQuery ch]) := by
  cases henv : env i <;> simp only [rig_pull_me, kenwood_exchange, henv]
  case ok l => cases l <;> rfl

theorem rig_push_me_counter_trace (env : Env) (i : Nat) (r : Me) :
    (rig_push_me env i r).2 = (i + 1, [Cmd.meSet r]) := by
  cases henv : env i <;> simp only [rig_push_me, kenwood_exchange, henv]

theorem rig_pull_bc_counter_trace (env : Env) (i : Nat) :
    (rig_pull_bc env i).2 = (i + 1, [Cmd.bcQuery]) := by
  cases henv : env i <;> simp only [rig_pull_bc, kenwood_exchange, henv]
  case ok l => cases l <;> rfl

theorem tmv71_vfo_to_channel_no_push (env : Env) (i : Nat) (v : Int) (r : Me) :
    Cmd.meSet r ∉ (tmv71_vfo_to_channel env i v).2.2 := by
  unfold tmv71_vfo_to_channel
  split_ifs <;> simp only
  · exact List.not_mem_nil _
  · exact List.not_mem_nil _
  · have h := rig_pull_bc_counter_trace env i
    intro hmem
    rw [show (rig_pull_bc env i).2.2 = [Cmd.bcQuery] by rw [h]] at hmem
    simp at hmem

theorem tmv71_resolve_vfo_for_split_idem (st : TmvState) (a v : Int) :
    tmv71_resolve_vfo_for_split st a (tmv71_resolve_vfo_for_split st a v) =
      tmv71_resolve_vfo_for_split st a v := by
  unfold tmv71_resolve_vfo_for_split
  split_ifs <;> rfl

/-- C9: the frequency-grid snap of tmv71_resolve_supported_freq is idempotent:
re-snapping a frequency it produced returns the same frequency and the same
step index. -/
theorem tmv71_resolve_supported_freq_idem (f : Nat) :
    tmv71_resolve_supported_freq ((tmv71_resolve_supported_freq f).frequency) =
      tmv71_resolve_supported_freq f := by
  simp only [tmv71_resolve_supported_freq]
  split_ifs <;> simp_all [StepFreq.mk.injEq] <;> omega

/-- C10: tmv71_get_split_vfo assigns the txvfo output from the session's
intended TX vfo and never assigns the split output, whatever the oracle, the
session state and the caller's prior values are. -/
theorem tmv71_get_split_vfo_frame (env : Env) (i : Nat) (st : TmvState)
    (split0 txvfo0 : Int) :
    ((tmv71_get_split_vfo env i st split0 txvfo0).1).split = split0 ∧
    ((tmv71_get_split_vfo env i st split0 txvfo0).1).txvfo = st.vfo_tx := by
  unfold tmv71_get_split_vfo tmv71_get_current_vfo
  rcases h : rig_pull_bc env i with ⟨res, i1, tr⟩
  cases res <;> simp [h]

/-- C3 (code bug): at the spec's own example input 446123000 Hz the snap
returns 446120000 Hz with step index 0, because the integer divisions in
`round(freq / 5000) * 5000` truncate before `round` runs; the 5 kHz grid
member 446125000 Hz is strictly closer to the request, so the result is not
the nearest grid member. -/
theorem tmv71_resolve_supported_freq_truncates :
    tmv71_resolve_supported_freq 446123000 = ⟨446120000, 0⟩ ∧
    446125000 % 5000 = 0 ∧
    446125000 - 446123000 < 446123000 - 446120000 ∧
    (446120000 : Nat) ≠ 446125000 := by decide

/-- C4 (code bug): tmv71_open assigns `vfo_tx` twice and never assigns
`vfo_rx` or the split flag.  Starting from the session state left by
set-split-vfo(on, A) - namely (tx = A, rx = B, split = on) - a session open
leaves rx = B and split on, while issuing no command. -/
theorem tmv71_open_keeps_rx_and_split :
    (((tmv71_set_split_vfo envOK 0 ⟨RIG_VFO_A, RIG_VFO_NONE, RIG_SPLIT_OFF⟩
        RIG_SPLIT_ON RIG_VFO_A).1).2 = ⟨RIG_VFO_A, RIG_VFO_B, RIG_SPLIT_ON⟩) ∧
    tmv71_open ⟨RIG_VFO_A, RIG_VFO_B, RIG_SPLIT_ON⟩ =
      (⟨RIG_VFO_A, RIG_VFO_B, RIG_SPLIT_ON⟩, []) ∧
    RIG_VFO_B ≠ RIG_VFO_A ∧ RIG_SPLIT_ON ≠ RIG_SPLIT_OFF := by decide

/-- C6 (code bug): set-ctcss-tone on a channel whose stored record has
transmit-tone index 5 pushes a record that still has tone_freq = 5, not the
index of the requested tone (the computed code is stored in a dead local in
the source); the enable flags of the pushed record are tone = 1, ct = 0,
dcs = 0, so the exclusivity half of the claim does hold on this push. -/
theorem tmv71_set_ctcss_tone_keeps_old_index :
    tmv71_set_ctcss_tone envToneFive 0 0 RIG_VFO_A 1000 =
      (.ok (), 2, [Cmd.meQuery 998,
        Cmd.meSet { meToneFive with tone := 1, ct := 0, dcs := 0 }]) ∧
    ({ meToneFive with tone := 1, ct := 0, dcs := 0 } : Me).tone_freq = 5 ∧
    ({ meToneFive with tone := 1, ct := 0, dcs := 0 } : Me).tone = 1 ∧
    ({ meToneFive with tone := 1, ct := 0, dcs := 0 } : Me).ct = 0 ∧
    ({ meToneFive with tone := 1, ct := 0, dcs := 0 } : Me).dcs = 0 ∧
    (5 : Int) ≠ 11 := by decide

/-- C7 (code bug): get-DCD sends `BY` with the raw vfo value and its
`sscanf(buf, "BY %d")` reads the band echo, not the squelch flag: the reply
`BY 0,1` yields DCD off with RIG_OK (the claim says on), and the reply
`BY 0,9` also yields DCD off with RIG_OK (the claim says rejected). -/
theorem tmv71_get_dcd_reads_band_field :
    tmv71_get_dcd envBy 0 0 RIG_VFO_A = (.ok Dcd.off, 1, [Cmd.byQuery RIG_VFO_A]) ∧
    tmv71_get_dcd envBy 1 0 RIG_VFO_A = (.ok Dcd.off, 2, [Cmd.byQuery RIG_VFO_A]) ∧
    envBy 0 = .ok (Line.byLine 0 1) ∧
    envBy 1 = .ok (Line.byLine 0 9) ∧
    Dcd.off ≠ Dcd.on ∧
    (Except.ok Dcd.off : Except RigErr Dcd) ≠ .error RigErr.rjcted := by decide

/-- C8 counterexample: with a transport that fails every exchange, set-ptt(on)
still returns RIG_OK although its inner TX push failed, and get-ctcss-tone
still returns RIG_OK although its inner ME pull failed. -/
theorem tmv71_set_ptt_ok_on_failed_push :
    tmv71_set_ptt envIO 0 RIG_PTT_ON = (.ok (), 1, [Cmd.txSet]) ∧
    rig_push_tx envIO 0 = (.error RigErr.io, 1, [Cmd.txSet]) ∧
    tmv71_get_ctcss_tone envIO 0 RIG_VFO_A = (.ok (), 1, [Cmd.meQuery 998]) ∧
    rig_pull_me envIO 0 998 = (.error RigErr.io, 1, [Cmd.meQuery 998]) ∧
    (Except.ok () : Retcode) ≠ .error RigErr.io := by decide

/-- C8 (amended): set-ptt and the three tone getters discard the return value
of their inner push or pull and return RIG_OK unconditionally, for every
oracle and argument. -/
theorem tmv71_set_ptt_and_tone_getters_swallow (env : Env) (i : Nat)
    (ptt vfo : Int) :
    (tmv71_set_ptt env i ptt).1 = .ok () ∧
    (tmv71_get_ctcss_tone env i vfo).1 = .ok () ∧
    (tmv71_get_ctcss_sql env i vfo).1 = .ok () ∧
    (tmv71_get_dcs_sql env i vfo).1 = .ok () :=
  ⟨rfl, rfl, rfl, rfl⟩

/-- C2 counterexample: in set-VFO(A), when the pull of channel 998 fails with
a transport (I/O) error - not a rejection - the source still pushes the fresh
record and completes the selection path with RIG_OK, instead of aborting with
the I/O error. -/
theorem tmv71_set_vfo_provisions_on_io_error :
    tmv71_set_vfo envC2 0 RIG_VFO_A =
      (.ok (), 5, [Cmd.vmSet 0 1, Cmd.meQuery 998, Cmd.meSet (tmv71_clean_me 998),
                   Cmd.mrSet 0 998, Cmd.bcSet 0 0]) ∧
    envC2 1 = .error RigErr.io ∧
    (Except.ok () : Retcode) ≠ .error RigErr.io := by decide

/-- C1: every public single-field setter (set-freq, set-split-freq, set-mode,
set-ts, and the three tone setters) factors as a pull-free command prefix
followed by one run of tmv71_update_memory_channel, and that helper (1) pulls
the chosen channel first, (2) returns the pull's error without issuing any
push when the pull fails - with a transport error or with the rejection that
a malformed reply produces - and (3) otherwise pushes the record obtained by
overlaying onto the pulled record exactly the non-sentinel fields of the
partial record, keeping the pulled channel number. -/
theorem tmv71_partial_update_discipline :
    (∀ env i ch p e, env i = .error e →
        tmv71_update_memory_channel env i ch p =
          (.error e, i + 1, [Cmd.meQuery ch])) ∧
    (∀ env i ch p l, env i = .ok l → (∀ r, l ≠ Line.me r) →
        tmv71_update_memory_channel env i ch p =
          (.error RigErr.rjcted, i + 1, [Cmd.meQuery ch])) ∧
    (∀ env i ch p cur, env i = .ok (Line.me cur) →
        tmv71_update_memory_channel env i ch p =
          ((rig_push_me env (i + 1) (tmv71_me_overlay cur p)).1, i + 2,
            [Cmd.meQuery ch, Cmd.meSet (tmv71_me_overlay cur p)]) ∧
        (tmv71_me_overlay cur p).channel = cur.channel ∧
        (tmv71_me_overlay cur p).freq = (if p.freq = -1 then cur.freq else p.freq) ∧
        (tmv71_me_overlay cur p).step = (if p.step = -1 then cur.step else p.step) ∧
        (tmv71_me_overlay cur p).shift = (if p.shift = -1 then cur.shift else p.shift) ∧
        (tmv71_me_overlay cur p).reverse =
          (if p.reverse = -1 then cur.reverse else p.reverse) ∧
        (tmv71_me_overlay cur p).tone = (if p.tone = -1 then cur.tone else p.tone) ∧
        (tmv71_me_overlay cur p).ct = (if p.ct = -1 then cur.ct else p.ct) ∧
        (tmv71_me_overlay cur p).dcs = (if p.dcs = -1 then cur.dcs else p.dcs) ∧
        (tmv71_me_overlay cur p).tone_freq =
          (if p.tone_freq = -1 then cur.tone_freq else p.tone_freq) ∧
        (tmv71_me_overlay cur p).ct_freq =
          (if p.ct_freq = -1 then cur.ct_freq else p.ct_freq) ∧
        (tmv71_me_overlay cur p).dcs_val =
          (if p.dcs_val = -1 then cur.dcs_val else p.dcs_val) ∧
        (tmv71_me_overlay cur p).offset =
          (if p.offset = -1 then cur.offset else p.offset) ∧
        (tmv71_me_overlay cur p).mode = (if p.mode = -1 then cur.mode else p.mode) ∧
        (tmv71_me_overlay cur p).tx_freq =
          (if p.tx_freq = -1 then cur.tx_freq else p.tx_freq) ∧
        (tmv71_me_overlay cur p).tx_step =
          (if p.tx_step = -1 then cur.tx_step else p.tx_step) ∧
        (tmv71_me_overlay cur p).lockout =
          (if p.lockout = -1 then cur.lockout else p.lockout)) ∧
    (∀ env i u st vfo f, runs_partial_update env (tmv71_set_freq env i u st vfo f)) ∧
    (∀ env i u st vfo f,
        runs_partial_update env (tmv71_set_split_freq env i u st vfo f)) ∧
    (∀ env i u st vfo m, runs_partial_update env (tmv71_set_mode env i u st vfo m)) ∧
    (∀ env i u vfo ts, runs_partial_update env (tmv71_set_ts env i u vfo ts)) ∧
    (∀ env i u vfo t,
        runs_partial_update env (tmv71_set_ctcss_tone env i u vfo t)) ∧
    (∀ env i u vfo t,
        runs_partial_update env (tmv71_set_ctcss_sql env i u vfo t)) ∧
    (∀ env i u vfo t,
        runs_partial_update env (tmv71_set_dcs_sql env i u vfo t)) := by
  refine ⟨?_, ?_, ?_, ?_, ?_, ?_, ?_, ?_, ?_, ?_⟩
  · intro env i ch p e h
    simp [tmv71_update_memory_channel, rig_pull_me, kenwood_exchange, h]
  · intro env i ch p l h hne
    cases l with
    | me r => exact absurd rfl (hne r)
    | bc a b => simp [tmv71_update_memory_channel, rig_pull_me, kenwood_exchange, h]
    | vm a b => simp [tmv71_update_memory_channel, rig_pull_me, kenwood_exchange, h]
    | mr a b => simp [tmv71_update_memory_channel, rig_pull_me, kenwood_exchange, h]
    | byLine a b => simp [tmv71_update_memory_channel, rig_pull_me, kenwood_exchange, h]
    | plain => simp [tmv71_update_memory_channel, rig_pull_me, kenwood_exchange, h]
  · intro env i ch p cur h
    refine ⟨?_, ?_, ?_, ?_, ?_, ?_, ?_, ?_, ?_, ?_, ?_, ?_, ?_, ?_, ?_, ?_, ?_⟩
    · cases h2 : env (i + 1) <;>
        simp [tmv71_update_memory_channel, rig_pull_me, rig_push_me,
          kenwood_exchange, h, h2, prepends]
    all_goals simp [tmv71_me_overlay, ite_not]
  · intro env i u st vfo f
    exact ⟨_, _, _, _,
      fun r => tmv71_vfo_to_channel_no_push env i
        (tmv71_resolve_vfo_for_split st 0 vfo) r, rfl⟩
  · intro env i u st vfo f
    exact ⟨_, _, _, _,
      fun r => tmv71_vfo_to_channel_no_push env i
        (tmv71_resolve_vfo_for_split st 1 vfo) r, rfl⟩
  · intro env i u st vfo m
    exact ⟨_, _, _, _,
      fun r => tmv71_vfo_to_channel_no_push env i
        (tmv71_resolve_vfo_for_split st 0 vfo) r, rfl⟩
  · intro env i u vfo ts
    exact ⟨_, _, _, _, fun r => tmv71_vfo_to_channel_no_push env i vfo r, rfl⟩
  · intro env i u vfo t
    exact ⟨_, _, _, _, fun r => tmv71_vfo_to_channel_no_push env i vfo r, rfl⟩
  · intro env i u vfo t
    exact ⟨_, _, _, _, fun r => tmv71_vfo_to_channel_no_push env i vfo r, rfl⟩
  · intro env i u vfo t
    exact ⟨_, _, _, _, fun r => tmv71_vfo_to_channel_no_push env i vfo r, rfl⟩

/-- C1 witness: at a concrete oracle whose first exchange fails with an I/O
error, the update helper returns that error after only the pull command. -/
theorem tmv71_partial_update_discipline_witness :
    tmv71_update_memory_channel envIO 0 998 (tmv71_get_update_me 0) =
      (.error RigErr.io, 1, [Cmd.meQuery 998]) :=
  tmv71_partial_update_discipline.1 envIO 0 998 (tmv71_get_update_me 0) RigErr.io rfl

/-- C2 (amended): in set-VFO(A) or set-VFO(B), when the VM push succeeds and
the pull of the corresponding virtual channel (998 or 999) fails with ANY
error - the rejection of an empty channel as well as a transport failure -
the core pushes a freshly constructed ME record whose channel index is the
reserved channel, whose RX frequency is 146500000 Hz and whose remaining
fields are all zero, and continues the selection path instead of aborting. -/
theorem tmv71_set_vfo_provisions_on_any_pull_error (env : Env) (i : Nat)
    (vfo ch : Int)
    (hsel : (vfo = RIG_VFO_A ∧ ch = tmv71_BAND_A_CHANNEL) ∨
            (vfo = RIG_VFO_B ∧ ch = tmv71_BAND_B_CHANNEL))
    (hvm : ∃ l, env i = .ok l)
    (hpull : ∃ e, (rig_pull_me env (i + 1) ch).1 = .error e) :
    (∃ res i2 tail,
      tmv71_set_vfo env i vfo =
        (res, i2,
          Cmd.vmSet (tmv71_transform_vfo_to_band vfo) tmv71_BAND_MODE_MEMORY ::
            Cmd.meQuery ch :: Cmd.meSet (tmv71_clean_me ch) :: tail)) ∧
    tmv71_clean_me ch =
      { channel := ch, freq := 146500000, step := 0, shift := 0, reverse := 0,
        tone := 0, ct := 0, dcs := 0, tone_freq := 0, ct_freq := 0,
        dcs_val := 0, offset := 0, mode := 0, tx_freq := 0, tx_step := 0,
        lockout := 0 } := by
  obtain ⟨l, hl⟩ := hvm
  obtain ⟨e, he⟩ := hpull
  have hp : rig_pull_me env (i + 1) ch = (.error e, i + 2, [Cmd.meQuery ch]) := by
    rw [Prod.ext_iff]
    exact ⟨he, by rw [rig_pull_me_counter_trace]⟩
  have hbody : ∃ res i2 tail,
      tmv71_set_vfo_body env i vfo ch =
        (res, i2,
          Cmd.vmSet (tmv71_transform_vfo_to_band vfo) tmv71_BAND_MODE_MEMORY ::
            Cmd.meQuery ch :: Cmd.meSet (tmv71_clean_me ch) :: tail) := by
    have hch : ch > 0 := by
      rcases hsel with ⟨_, hc⟩ | ⟨_, hc⟩ <;> subst hc <;> decide
    rcases hc3 : tmv71_create_clean_memory_channel env (i + 2) ch with ⟨res3, i3, tr3⟩
    have hcc : (i3, tr3) = (i + 3, [Cmd.meSet (tmv71_clean_me ch)]) := by
      have h0 := rig_push_me_counter_trace env (i + 2) (tmv71_clean_me ch)
      rw [show rig_push_me env (i + 2) (tmv71_clean_me ch) =
        tmv71_create_clean_memory_channel env (i + 2) ch from rfl, hc3] at h0
      exact h0
    rw [Prod.mk.injEq] at hcc
    obtain ⟨hi3, htr3⟩ := hcc
    subst hi3
    subst htr3
    cases res3 with
    | error e3 =>
        refine ⟨.error e3, i + 3, [], ?_⟩
        simp [tmv71_set_vfo_body, rig_push_vm, kenwood_exchange, hl, hp, hc3, hch]
    | ok u3 =>
        rcases h4 : tmv71_set_vfo_mr_bc env (i + 3) vfo ch with ⟨res4, i4, tr4⟩
        refine ⟨res4, i4, tr4, ?_⟩
        simp [tmv71_set_vfo_body, rig_push_vm, kenwood_exchange, hl, hp, hc3,
          h4, hch, prepends]
  refine ⟨?_, rfl⟩
  rcases hsel with ⟨hv, hc⟩ | ⟨hv, hc⟩ <;> subst hv <;> subst hc
  · rw [show tmv71_set_vfo env i RIG_VFO_A =
      tmv71_set_vfo_body env i RIG_VFO_A tmv71_BAND_A_CHANNEL by
        simp [tmv71_set_vfo]]
    exact hbody
  · rw [show tmv71_set_vfo env i RIG_VFO_B =
      tmv71_set_vfo_body env i RIG_VFO_B tmv71_BAND_B_CHANNEL by
        simp [tmv71_set_vfo, RIG_VFO_A, RIG_VFO_B, RIG_VFO_VFO]]
    exact hbody

/-- C2 witness: the amended theorem applied to the concrete run in which the
VM push succeeds and the pull of channel 998 fails with an I/O error. -/
theorem tmv71_set_vfo_provisions_witness :
    (∃ res i2 tail,
      tmv71_set_vfo envC2 0 RIG_VFO_A =
        (res, i2,
          Cmd.vmSet (tmv71_transform_vfo_to_band RIG_VFO_A) tmv71_BAND_MODE_MEMORY ::
            Cmd.meQuery tmv71_BAND_A_CHANNEL ::
            Cmd.meSet (tmv71_clean_me tmv71_BAND_A_CHANNEL) :: tail)) ∧
    tmv71_clean_me tmv71_BAND_A_CHANNEL =
      { channel := tmv71_BAND_A_CHANNEL, freq := 146500000, step := 0, shift := 0,
        reverse := 0, tone := 0, ct := 0, dcs := 0, tone_freq := 0, ct_freq := 0,
        dcs_val := 0, offset := 0, mode := 0, tx_freq := 0, tx_step := 0,
        lockout := 0 } :=
  tmv71_set_vfo_provisions_on_any_pull_error envC2 0 RIG_VFO_A tmv71_BAND_A_CHANNEL
    (Or.inl ⟨rfl, rfl⟩) ⟨Line.plain, rfl⟩ ⟨RigErr.io, by decide⟩

/-- C5: when the session split flag is on, the non-split routing (used by
set-freq, get-freq, set-mode and get-mode) resolves to the session RX vfo and
the split routing (used by set-split-freq and get-split-freq) resolves to the
session TX vfo, both ignoring the requested vfo; when the flag is off both
resolve to the requested vfo; and each of the six operations is exactly its
core operation at the vfo so resolved. -/
theorem tmv71_split_routing (st : TmvState) (vfo : Int) :
    (st.split_mode_active = RIG_SPLIT_ON →
        tmv71_resolve_vfo_for_split st 0 vfo = st.vfo_rx ∧
        tmv71_resolve_vfo_for_split st 1 vfo = st.vfo_tx) ∧
    (st.split_mode_active ≠ RIG_SPLIT_ON →
        tmv71_resolve_vfo_for_split st 0 vfo = vfo ∧
        tmv71_resolve_vfo_for_split st 1 vfo = vfo) ∧
    (∀ env i u f, tmv71_set_freq env i u st vfo f =
        tmv71_do_set_freq env i u (tmv71_resolve_vfo_for_split st 0 vfo) f) ∧
    (∀ env i, tmv71_get_freq env i st vfo =
        tmv71_do_get_freq env i (tmv71_resolve_vfo_for_split st 0 vfo)) ∧
    (∀ env i u f, tmv71_set_split_freq env i u st vfo f =
        tmv71_do_set_freq env i u (tmv71_resolve_vfo_for_split st 1 vfo) f) ∧
    (∀ env i, tmv71_get_split_freq env i st vfo =
        tmv71_do_get_freq env i (tmv71_resolve_vfo_for_split st 1 vfo)) ∧
    (∀ env i u m, tmv71_set_mode env i u st vfo m =
        tmv71_set_mode env i u st (tmv71_resolve_vfo_for_split st 0 vfo) m) ∧
    (∀ env i, tmv71_get_mode env i st vfo =
        tmv71_get_mode env i st (tmv71_resolve_vfo_for_split st 0 vfo)) := by
  refine ⟨?_, ?_, fun env i u f => rfl, fun env i => rfl, fun env i u f => rfl,
    fun env i => rfl, ?_, ?_⟩
  · intro h
    simp [tmv71_resolve_vfo_for_split, h]
  · intro h
    simp [tmv71_resolve_vfo_for_split, h]
  · intro env i u m
    simp only [tmv71_set_mode, tmv71_resolve_vfo_for_split_idem]
  · intro env i
    simp only [tmv71_get_mode, tmv71_resolve_vfo_for_split_idem]

/-- C5 witness: with split on and (tx = B, rx = A), a request for B routes the
non-split path to A and the split path to B; with split off the requested vfo
is kept. -/
theorem tmv71_split_routing_witness :
    tmv71_resolve_vfo_for_split ⟨RIG_VFO_B, RIG_VFO_A, RIG_SPLIT_ON⟩ 0 RIG_VFO_B
      = RIG_VFO_A ∧
    tmv71_resolve_vfo_for_split ⟨RIG_VFO_B, RIG_VFO_A, RIG_SPLIT_ON⟩ 1 RIG_VFO_B
      = RIG_VFO_B ∧
    tmv71_resolve_vfo_for_split ⟨RIG_VFO_B, RIG_VFO_A, RIG_SPLIT_OFF⟩ 0 RIG_VFO_A
      = RIG_VFO_A := by
  have h1 := tmv71_split_routing ⟨RIG_VFO_B, RIG_VFO_A, RIG_SPLIT_ON⟩ RIG_VFO_B
  have h2 := tmv71_split_routing ⟨RIG_VFO_B, RIG_VFO_A, RIG_SPLIT_OFF⟩ RIG_VFO_A
  exact ⟨(h1.1 rfl).1, (h1.1 rfl).2, (h2.2.1 (by decide)).1⟩
